import Mathlib

/-!
Verification of the tag-loading browser extension (`src/background.js`).

The file shallow-embeds the extension's two halves:

* the privileged Fetch Relay (the `chrome.runtime.onMessage` listener in the
  background page), and
* the Page Integration Controller (navigation detection, the update-loop
  guards, the polling primitive, listener attachment, and the legacy DOM
  rendering code).

JavaScript effects are made explicit: mutable globals become record fields
threaded through functions, asynchronous work (relay requests, timers,
polls) becomes lists of emitted effects, and expressions that can raise a
`TypeError` (property access on `undefined`/`null`) return `Except`.
-/

namespace TagsForYouTube

/-! ### Fetch Relay (background page, `src/background.js` lines 16–26)

The remote API's JSON, restricted to the fields the listener touches.
`Option` models a JSON field that may be absent (JS `undefined`). -/

structure Snippet where
  tags : Option (List String)
deriving Repr, DecidableEq

structure ApiItem where
  snippet : Option Snippet
deriving Repr, DecidableEq

structure ApiResponse where
  items : Option (List ApiItem)
deriving Repr, DecidableEq

/-- The inter-context message: `{contentScriptQuery: ..., sendId: ...}`.
`sendId` is `Option String` because `getVideoId` can produce `null`. -/
structure Request where
  contentScriptQuery : String
  sendId : Option String
deriving Repr, DecidableEq

/-- Outcome of the listener for one incoming message. -/
inductive RelayReply where
  /-- The listener invoked `sendResponse` with this tag list. -/
  | responded (tags : List String)
  /-- Discriminator mismatch: the listener returns `undefined` and does not
  claim the channel. -/
  | noResponse
  /-- A step of the promise chain threw or rejected, so the chain after it was
  skipped: `sendResponse` is never invoked and the rejection stays inside the
  background context (it is not thrown at the caller). -/
  | rejectedInChain
deriving Repr, DecidableEq

/-- The mapping step `r => (r.items[0] && r.items[0].snippet.tags) || []`
(line 21), with JavaScript evaluation order and truthiness:

* `r.items` absent makes `r.items[0]` a property read on `undefined`: TypeError;
* `r.items[0]` absent (empty array) is `undefined`, falsy, so `&&`
  short-circuits and `|| []` yields `[]`;
* `r.items[0].snippet` absent makes `.tags` a read on `undefined`: TypeError;
* `tags` absent gives `undefined || []`, i.e. `[]`; a present `tags` array is
  truthy (even when empty) and is returned as-is. -/
def extractTags (r : ApiResponse) : Except Unit (List String) :=
  match r.items with
  | none => .error ()
  | some items =>
    match items.head? with
    | none => .ok []
    | some item =>
      match item.snippet with
      | none => .error ()
      | some sn =>
        match sn.tags with
        | none => .ok []
        | some tags => .ok tags

/-- The `chrome.runtime.onMessage` listener (lines 16–26). The network and
JSON layers are abstracted into `jsonResult`: `none` models `fetch` failing or
`r.json()` rejecting (the rest of the chain is skipped), `some r` the parsed
body. -/
def onMessageReply (request : Request) (jsonResult : Option ApiResponse) :
    RelayReply :=
  if request.contentScriptQuery == "queryId" then
    match jsonResult with
    | none => .rejectedInChain
    | some r =>
      match extractTags r with
      | .ok tags => .responded tags
      | .error _ => .rejectedInChain
  else
    .noResponse

/-! ### Material-layout visibility re-check (`src/background.js` lines 459–490) -/

/-- A DOM element as far as `expandIfButtonsAreHidden` reads it: only its
`hidden` attribute (`getAttribute` returns `null`, i.e. `none`, when the
attribute is absent). -/
structure ButtonElement where
  hiddenAttr : Option String
deriving Repr, DecidableEq

/-- The two `querySelector` results the re-check depends on; `none` models a
selector with no match (`querySelector` returning `null`). -/
structure MaterialButtonsDoc where
  moreButton : Option ButtonElement
  lessButton : Option ButtonElement
deriving Repr, DecidableEq

/-- A raised JavaScript exception. -/
inductive JsError where
  /-- TypeError from a property access on `null`/`undefined`. -/
  | typeError
deriving Repr, DecidableEq

/-- The inner `expandIfButtonsAreHidden` of `tryCollapseMaterialOutputElement`
(lines 470–485), which runs at fixed delays after rendering. It computes the
new `display` style of the output element. Both `var` statements run before
the `if`s; each dereferences its `querySelector` result without a null check,
so an absent button raises a TypeError. -/
def expandIfButtonsAreHidden (doc : MaterialButtonsDoc) (display : String) :
    Except JsError String :=
  match doc.moreButton with
  | none => .error .typeError
  | some mb =>
    let isMoreButtonHidden := mb.hiddenAttr.isSome
    match doc.lessButton with
    | none => .error .typeError
    | some lb =>
      let isLessButtonHidden := lb.hiddenAttr.isSome
      if isMoreButtonHidden then
        .ok "block"
      else if !isMoreButtonHidden && isLessButtonHidden then
        .ok "none"
      else
        .ok display

/-! ### Navigation and session state (`src/background.js` lines 31–99)

`window.location` is platform state: we carry its `href` string and the
query parameters as `URLSearchParams` would expose them (`get` returns the
first value for a key, or `null`). -/

structure Location where
  href : String
  params : List (String × String)
deriving Repr, DecidableEq

/-- Line 53, `getVideoId`: `new URLSearchParams(window.location.search).get("v")`. -/
def getVideoId (loc : Location) : Option String :=
  (loc.params.find? (fun p => p.1 == "v")).map Prod.snd

/-- Substring test on character lists, for `String.indexOf(...) !== -1`. -/
def containsSub (needle hay : List Char) : Bool :=
  match hay with
  | [] => needle.isEmpty
  | _ :: t => needle.isPrefixOf hay || containsSub needle t

/-- Line 60, `isVideoPage`: `window.location.href.indexOf("/watch?v=") !== -1`. -/
def isVideoPage (loc : Location) : Bool :=
  containsSub "/watch?v=".data loc.href.data

/-- The mutable `state` global (lines 31–37). -/
structure SessionState where
  lastVideoId : Option String
deriving Repr, DecidableEq

/-- Line 67, `hasNavigated`: `state.lastVideoId != getVideoId()`. Both sides
are a string or `null`, on which JS loose `!=` coincides with structural
inequality of `Option String`. -/
def hasNavigated (st : SessionState) (loc : Location) : Bool :=
  !(st.lastVideoId == getVideoId loc)

/-- Asynchronous work started by the controller, recorded as emitted effects. -/
inductive Effect where
  /-- One `chrome.runtime.sendMessage({contentScriptQuery: "queryId", sendId: id}, ...)` call. -/
  | relayRequest (sendId : Option String)
  /-- A `clearTags()` call: render an empty tag list. -/
  | clearTags
  /-- A `pollSelector(selector)` chain was started. -/
  | startPoll (selector : String)
deriving Repr, DecidableEq

/-- Lines 79–83, `fetchTags`: sends one relay request; the response callback
is asynchronous and does not touch `state`. -/
def fetchTags (id : Option String) : List Effect :=
  [.relayRequest id]

/-- Lines 92–99, `loadTagsForCurrentVideo`: reads the current id, overwrites
`state.lastVideoId` with it, then calls `fetchTags` on it. No video-page or
navigation check of its own. -/
def loadTagsForCurrentVideo (loc : Location) (_st : SessionState) :
    SessionState × List Effect :=
  let id := getVideoId loc
  ({ lastVideoId := id }, fetchTags id)

/-! ### Update loops (`src/background.js` lines 108–168) -/

/-- The modern-layout `tryUpdate` (lines 113–144): guard
`!hasNavigated() || !isVideoPage()` returns early; otherwise it clears tags
and starts a poll for the "Show more" button. The synchronous body never
mutates `state` (only the poll's continuations do, later). -/
def tryUpdate (loc : Location) (st : SessionState) :
    SessionState × List Effect :=
  if !(hasNavigated st loc) || !(isVideoPage loc) then
    (st, [])
  else
    (st, [.clearTags, .startPoll "#meta paper-button#more"])

/-- The body of the legacy `setInterval` loop (lines 158–168): guard
`!isVideoPage() || !hasNavigated()` returns early; otherwise it starts a poll
for the legacy expander button. -/
def legacyIntervalBody (loc : Location) (st : SessionState) :
    SessionState × List Effect :=
  if !(isVideoPage loc) || !(hasNavigated st loc) then
    (st, [])
  else
    (st, [.startPoll ".yt-uix-button.yt-uix-expander-collapsed-body"])

/-- Runs `n` successive invocations of an update attempt (the `setInterval` body
runs repeatedly; `tryUpdate` fires on every `yt-page-data-updated` event),
with the address unchanged in between: states are threaded, emitted effects
accumulated. -/
def repeatAttempt (f : SessionState → SessionState × List Effect) :
    Nat → SessionState → SessionState × List Effect
  | 0, st => (st, [])
  | n + 1, st =>
    let r := f st
    let r2 := repeatAttempt f n r.1
    (r2.1, r.2 ++ r2.2)

/-! ### Listener attachment (`src/background.js` lines 177–187) -/

/-- An anchor element as `loadTagsOn` sees it: its attributes and, per event
name, the listeners attached so far (each occurrence of an event name is one
attached tag-load handler). -/
structure Anchor where
  attrs : List (String × String)
  listeners : List String
deriving Repr, DecidableEq

/-- Models `getAttribute`: `null` (`none`) when absent, otherwise the first stored
value. -/
def getAttr (a : Anchor) (key : String) : Option String :=
  (a.attrs.find? (fun p => p.1 == key)).map Prod.snd

/-- JS truthiness of a `getAttribute` result: `null` and `""` are falsy. -/
def attrTruthy : Option String → Bool
  | none => false
  | some s => !(s == "")

/-- The marker attribute name: `` `data-tfyt-preload-on-${event}` ``. -/
def preloadKey (event : String) : String :=
  "data-tfyt-preload-on-" ++ event

/-- Lines 177–187, `loadTagsOn`: if the marker attribute is not truthy, set
it to `"bound"` and attach one listener for `event`; otherwise do nothing. -/
def loadTagsOn (event : String) (target : Anchor) : Anchor :=
  let key := preloadKey event
  if attrTruthy (getAttr target key) then
    target
  else
    { attrs := (key, "bound") :: target.attrs
      listeners := target.listeners ++ [event] }

/-- One attached handler (lines 181–185): on the event, if
`isVideoPage() && hasNavigated()`, run `loadTagsForCurrentVideo`. The
accumulator carries the session state and the number of relay requests issued
so far during this dispatch. -/
def runAnchorHandler (loc : Location) (acc : SessionState × Nat) :
    SessionState × Nat :=
  if isVideoPage loc && hasNavigated acc.1 loc then
    ((loadTagsForCurrentVideo loc acc.1).1, acc.2 + 1)
  else
    acc

/-- Dispatching one DOM event of name `event` on the anchor: every listener
attached for that event runs in order, each through `runAnchorHandler`.
Returns the final session state and the number of tag-load (relay) requests
issued. -/
def dispatchEvent (a : Anchor) (event : String) (loc : Location)
    (st : SessionState) : SessionState × Nat :=
  (a.listeners.filter (fun e => e == event)).foldl
    (fun acc _ => runAnchorHandler loc acc) (st, 0)

/-! ### Trace machine for the session-state invariant

Navigations, tag-load initiations, and asynchronous relay responses, in any
interleaving. -/

inductive Ev where
  /-- The address changes (YouTube SPA navigation). -/
  | navigate (loc : Location)
  /-- A `loadTagsForCurrentVideo()` invocation. -/
  | load
  /-- A relay response arrives and is rendered (`addTagsToDom`); it does not
  touch `state.lastVideoId`. -/
  | response (tags : List String)
deriving Repr, DecidableEq

structure World where
  loc : Location
  st : SessionState
  rendered : List String
deriving Repr, DecidableEq

def stepW (w : World) : Ev → World
  | .navigate l => { w with loc := l }
  | .load => { w with st := (loadTagsForCurrentVideo w.loc w.st).1 }
  | .response tags => { w with rendered := tags }

def runW (w : World) (es : List Ev) : World :=
  es.foldl stepW w

/-! ### Polling primitive (`src/background.js` lines 198–223) -/

/-- Outcome of one `pollSelector` call: the promise resolves with an element
or rejects. `attempt` is the zero-based index of the `poll()` invocation that
settled the promise; invocation `k` runs at time `100 * k` ms (the initial
poll is synchronous at time 0, each retry fires one 100 ms timer later). -/
inductive PollResult (α : Type) where
  | resolved (e : α) (attempt : Nat)
  | rejected (attempt : Nat)
deriving Repr, DecidableEq

/-- The `poll`/`retry` loop of `pollSelector` (lines 205–222).
`find k` is `document.querySelector(selector)` as seen by the `k`-th poll
(`none` = no match). `msTimeout` is the captured parameter, decremented by
`msInterval = 100` on each retry, after the retry's timer is scheduled.
`timers` accumulates the fire times of every `setTimeout` the call schedules;
the rejecting and resolving branches schedule none. -/
def pollRun {α : Type} (find : Nat → Option α) (msTimeout : Int) (k : Nat)
    (timers : List Nat) : PollResult α × List Nat :=
  match find k with
  | some e => (.resolved e k, timers)
  | none =>
    if msTimeout > 0 then
      pollRun find (msTimeout - 100) (k + 1) (timers ++ [100 * (k + 1)])
    else
      (.rejected k, timers)
termination_by msTimeout.toNat
decreasing_by simp_wf; omega

/-- Runs `pollSelector` with its default 10 * 1000 ms timeout: the initial
synchronous `poll()` is invocation 0 with no timers scheduled yet. -/
def pollSelector {α : Type} (find : Nat → Option α) : PollResult α × List Nat :=
  pollRun find (10 * 1000) 0 []

/-! ### Rendering (`src/background.js` lines 240–360) -/

/-- Uppercase hexadecimal digit, for percent-encoding. -/
def hexDigit (n : Nat) : Char :=
  if n < 10 then Char.ofNat (48 + n) else Char.ofNat (55 + n)

/-- UTF-8 bytes of a code point. -/
def utf8Bytes (n : Nat) : List Nat :=
  if n < 128 then [n]
  else if n < 2048 then [192 + n / 64, 128 + n % 64]
  else if n < 65536 then [224 + n / 4096, 128 + (n / 64) % 64, 128 + n % 64]
  else [240 + n / 262144, 128 + (n / 4096) % 64, 128 + (n / 64) % 64,
        128 + n % 64]

/-- Characters `encodeURIComponent` leaves unescaped:
`A–Z a–z 0–9 - _ . ! ~ * ' ( )`. -/
def isUnescapedURI (c : Char) : Bool :=
  c.isAlphanum ||
    c ∈ ['-', '_', '.', '!', '~', '*', Char.ofNat 39, '(', ')']

def percentByte (b : Nat) : String :=
  "%" ++ String.singleton (hexDigit (b / 16)) ++ String.singleton (hexDigit (b % 16))

/-- JavaScript `encodeURIComponent`. -/
def encodeURIComponent (s : String) : String :=
  s.data.foldl
    (fun acc c =>
      acc ++ if isUnescapedURI c then String.singleton c
             else String.join ((utf8Bytes c.toNat).map percentByte))
    ""

def TAG_ELEMENT_STYLE : String :=
  "display: inline-block;padding-top: 4px;padding-bottom: 4px;padding-right: 15px;"

def MATERIAL_LINK_ELEMENT_STYLE : String :=
  "text-decoration: none;color: hsl(206.1, 79.3%, 52.7%);cursor: pointer;display: inline-block"

/-- One `<span>` produced per tag by the loop in `legacyDisplayTags`
(lines 331–359): a styled span holding an `<a>` (opening in a new tab,
linking to the search query, labelled with the tag) and the invisible
copy-paste comma span. `linkStyle` is set only in the material layout. -/
structure TagSpan where
  spanStyle : String
  linkTarget : String
  linkHref : String
  linkText : String
  linkStyle : Option String
  commaText : String
deriving Repr, DecidableEq

def mkTagSpan (isMat : Bool) (tag : String) : TagSpan :=
  { spanStyle := TAG_ELEMENT_STYLE
    linkTarget := "_blank"
    linkHref := "/results?search_query=" ++ encodeURIComponent tag
    linkText := tag
    linkStyle := if isMat then some MATERIAL_LINK_ELEMENT_STYLE else none
    commaText := ", " }

/-- The output element's rendered state: its children and the inline styles
`legacyDisplayTags` / `tryCollapseMaterialOutputElement` touch. -/
structure OutputElement where
  children : List TagSpan
  marginTop : String
  marginBottom : String
  display : String
deriving Repr, DecidableEq

/-- Result of one `legacyDisplayTags(tags)` call. -/
inductive RenderOutcome where
  /-- Here `tryLoadOutputElement()` returned `null`: reschedule the same call
  after the given delay (line 306) and change nothing. -/
  | retryLater (delayMs : Nat)
  /-- The output element was updated to this state. In the material layout
  `tryCollapseMaterialOutputElement` additionally scheduled the
  `expandIfButtonsAreHidden` re-check at these delays (lines 487–489). -/
  | rendered (out : OutputElement) (recheckDelays : List Nat)
deriving Repr, DecidableEq

/-- Lines 293–360, `legacyDisplayTags`, on an already-looked-up output
element (`none` = `tryLoadOutputElement()` returned `null`). It empties the
element, applies the material-only margin and collapse logic, then appends
one `TagSpan` per tag in order. -/
def legacyDisplayTags (isMat : Bool) (output : Option OutputElement)
    (tags : List String) : RenderOutcome :=
  match output with
  | none => .retryLater 1000
  | some out =>
    let out := { out with children := [] }
    let out :=
      if isMat then
        { out with
            marginTop := if tags.length > 0 then "20px" else "0"
            marginBottom := if tags.length > 0 then "10px" else "0"
            display := "none" }
      else out
    .rendered { out with children := tags.map (mkTagSpan isMat) }
      (if isMat then [500, 1000, 3000] else [])

/-! ## Helper lemmas -/

theorem stepW_st_of_ne_load (w : World) (e : Ev) (h : e ≠ Ev.load) :
    (stepW w e).st = w.st := by
  cases e with
  | navigate l => rfl
  | load => exact absurd rfl h
  | response t => rfl

theorem runW_st_of_no_load (es : List Ev) :
    ∀ w : World, (∀ e ∈ es, e ≠ Ev.load) → (runW w es).st = w.st := by
  induction es with
  | nil => intro w _; rfl
  | cons e t ih =>
    intro w h
    have h1 : e ≠ Ev.load := h e (List.mem_cons_self e t)
    have h2 : ∀ x ∈ t, x ≠ Ev.load := fun x hx => h x (List.mem_cons_of_mem e hx)
    show (runW (stepW w e) t).st = w.st
    rw [ih (stepW w e) h2, stepW_st_of_ne_load w e h1]

theorem repeatAttempt_noop (f : SessionState → SessionState × List Effect)
    (st : SessionState) (hf : f st = (st, [])) (n : Nat) :
    repeatAttempt f n st = (st, []) := by
  induction n with
  | zero => rfl
  | succ n ih => simp [repeatAttempt, hf, ih]

/-! ## Claims -/

/-- Claim C1, counterexample: on a remote response whose JSON lacks `items`
(the body `{}`), the relay does not respond with the empty sequence: the
mapping step throws a TypeError reading `[0]` of `undefined`, the rejection
stays in the promise chain, and `sendResponse` is never invoked. -/
theorem relay_missing_items_counterexample :
    onMessageReply ⟨"queryId", some "abc123"⟩ (some ⟨none⟩) =
      RelayReply.rejectedInChain ∧
    onMessageReply ⟨"queryId", some "abc123"⟩ (some ⟨none⟩) ≠
      RelayReply.responded [] := by
  decide

/-- Claim C1, amended: for every request carrying the recognized
discriminator, the relay responds with the tag sequence when
`items[0].snippet` exists (absent `tags` giving `[]`), and with `[]` when
`items` is present but `items[0]` is absent; but when the body fails to
parse, or the JSON lacks `items`, or `items[0]` lacks `snippet`, the mapping
step fails inside the promise chain, so no response (rather than the empty
sequence) reaches the caller — the failure is still not thrown at the
caller. -/
theorem relay_reply_characterization (req : Request)
    (h : req.contentScriptQuery = "queryId") (jsonResult : Option ApiResponse) :
    onMessageReply req jsonResult =
      (match jsonResult with
       | none => RelayReply.rejectedInChain
       | some r =>
         match r.items with
         | none => RelayReply.rejectedInChain
         | some [] => RelayReply.responded []
         | some (item :: _) =>
           match item.snippet with
           | none => RelayReply.rejectedInChain
           | some sn => RelayReply.responded (sn.tags.getD [])) := by
  unfold onMessageReply extractTags
  rw [if_pos (by simp [h])]
  cases jsonResult with
  | none => rfl
  | some r =>
    obtain ⟨items⟩ := r
    cases items with
    | none => rfl
    | some l =>
      cases l with
      | nil => rfl
      | cons item rest =>
        obtain ⟨sn⟩ := item
        cases sn with
        | none => rfl
        | some s =>
          obtain ⟨tags⟩ := s
          cases tags with
          | none => rfl
          | some ts => rfl

theorem relay_reply_characterization_witness :
    (⟨"queryId", some "abc123"⟩ : Request).contentScriptQuery = "queryId" ∧
    onMessageReply ⟨"queryId", some "abc123"⟩ (some ⟨some []⟩) =
      RelayReply.responded [] :=
  ⟨rfl, relay_reply_characterization ⟨"queryId", some "abc123"⟩ rfl (some ⟨some []⟩)⟩

/-- Claim C2: the modern-layout visibility re-check does not complete without
raising in every document state. In any state where `querySelector` finds no
"Show more" button (first conjunct) or no "Show less" button (second
conjunct) at the moment the delayed re-check fires, `expandIfButtonsAreHidden`
raises a TypeError by reading `getAttribute` of `null` — contradicting the
claim that every reachable handler invocation completes without raising. -/
theorem recheck_throws_on_absent_buttons :
    expandIfButtonsAreHidden ⟨none, some ⟨none⟩⟩ "none" =
      Except.error JsError.typeError ∧
    expandIfButtonsAreHidden ⟨some ⟨none⟩, none⟩ "none" =
      Except.error JsError.typeError :=
  ⟨rfl, rfl⟩

/-- Claim C3: for every sequence of navigations, tag-load initiations and
asynchronous response deliveries, after a tag-load request is issued (and
until the next one), `state.lastVideoId` equals the video identifier of the
address current at the moment that request was issued — regardless of later
navigations or of whether any request has completed. -/
theorem lastVideoId_tracks_issue_time (w : World) (es1 es2 : List Ev)
    (h : ∀ e ∈ es2, e ≠ Ev.load) :
    (runW w (es1 ++ Ev.load :: es2)).st.lastVideoId =
      getVideoId ((runW w es1).loc) := by
  unfold runW
  rw [List.foldl_append]
  show (runW (stepW (runW w es1) Ev.load) es2).st.lastVideoId = _
  rw [runW_st_of_no_load es2 _ h]
  rfl

theorem lastVideoId_tracks_issue_time_witness :
    (∀ e ∈ [Ev.navigate ⟨"https://www.youtube.com/feed", []⟩,
            Ev.response ["x"]], e ≠ Ev.load) ∧
    (runW ⟨⟨"https://www.youtube.com/watch?v=abc", [("v", "abc")]⟩, ⟨none⟩, []⟩
        ([] ++ Ev.load ::
          [Ev.navigate ⟨"https://www.youtube.com/feed", []⟩,
           Ev.response ["x"]])).st.lastVideoId =
      getVideoId ((runW
        ⟨⟨"https://www.youtube.com/watch?v=abc", [("v", "abc")]⟩, ⟨none⟩, []⟩
        []).loc) :=
  ⟨by decide, lastVideoId_tracks_issue_time _ _ _ (by decide)⟩

/-- Claim C4: immediately after `loadTagsForCurrentVideo` runs, with the
address unchanged, `hasNavigated` is `false`; and against any later address
it is `true` exactly when that address's video identifier differs from the
identifier stored at the load (including transitions to or from an absent
identifier). -/
theorem hasNavigated_after_load (loc : Location) (st : SessionState) :
    hasNavigated (loadTagsForCurrentVideo loc st).1 loc = false ∧
    ∀ loc2 : Location,
      (hasNavigated (loadTagsForCurrentVideo loc st).1 loc2 = true ↔
        getVideoId loc2 ≠ getVideoId loc) := by
  constructor
  · simp [hasNavigated, loadTagsForCurrentVideo]
  · intro loc2
    simp [hasNavigated, loadTagsForCurrentVideo]
    exact ne_comm

/-- Claim C10: `loadTagsForCurrentVideo` performs no video-page or navigation
check of its own: invoked with an address carrying no video identifier, it
still overwrites `state.lastVideoId` with the absent identifier and still
issues one relay request for it. -/
theorem loadTags_no_guard (loc : Location) (st : SessionState)
    (h : getVideoId loc = none) :
    loadTagsForCurrentVideo loc st =
      ({ lastVideoId := none }, [Effect.relayRequest none]) := by
  unfold loadTagsForCurrentVideo fetchTags
  rw [h]

theorem loadTags_no_guard_witness :
    getVideoId ⟨"https://www.youtube.com/feed", []⟩ = none ∧
    loadTagsForCurrentVideo ⟨"https://www.youtube.com/feed", []⟩ ⟨some "abc"⟩ =
      ({ lastVideoId := none }, [Effect.relayRequest none]) :=
  ⟨rfl, loadTags_no_guard ⟨"https://www.youtube.com/feed", []⟩ ⟨some "abc"⟩ rfl⟩

/-- Claim C5: when the current page is not a video page, or navigation has
not occurred since the last tag-load, one update attempt — the modern-layout
`tryUpdate` as well as the legacy interval body — leaves the session state
unchanged and emits no effect (no clearing, no poll, no relay request), and
so does any number of repeated invocations. -/
theorem update_guard_fail_noop (loc : Location) (st : SessionState)
    (h : isVideoPage loc = false ∨ hasNavigated st loc = false) (n : Nat) :
    tryUpdate loc st = (st, []) ∧
    legacyIntervalBody loc st = (st, []) ∧
    repeatAttempt (tryUpdate loc) n st = (st, []) ∧
    repeatAttempt (legacyIntervalBody loc) n st = (st, []) := by
  have h1 : tryUpdate loc st = (st, []) := by
    unfold tryUpdate
    rcases h with h | h <;> simp [h]
  have h2 : legacyIntervalBody loc st = (st, []) := by
    unfold legacyIntervalBody
    rcases h with h | h <;> simp [h]
  exact ⟨h1, h2, repeatAttempt_noop _ st h1 n, repeatAttempt_noop _ st h2 n⟩

theorem update_guard_fail_noop_witness :
    (isVideoPage ⟨"https://www.youtube.com/feed", []⟩ = false ∨
      hasNavigated ⟨some "abc"⟩ ⟨"https://www.youtube.com/feed", []⟩ = false) ∧
    (tryUpdate ⟨"https://www.youtube.com/feed", []⟩ ⟨some "abc"⟩ =
        (⟨some "abc"⟩, []) ∧
      legacyIntervalBody ⟨"https://www.youtube.com/feed", []⟩ ⟨some "abc"⟩ =
        (⟨some "abc"⟩, []) ∧
      repeatAttempt (tryUpdate ⟨"https://www.youtube.com/feed", []⟩) 3
          ⟨some "abc"⟩ = (⟨some "abc"⟩, []) ∧
      repeatAttempt (legacyIntervalBody ⟨"https://www.youtube.com/feed", []⟩) 3
          ⟨some "abc"⟩ = (⟨some "abc"⟩, [])) :=
  ⟨Or.inl (by decide),
   update_guard_fail_noop ⟨"https://www.youtube.com/feed", []⟩ ⟨some "abc"⟩
     (Or.inl (by decide)) 3⟩

/-- For a lookup that never matches, `pollRun` with remaining budget
`100 * n` polls `n` more times after poll `k`, rejects at poll `k + n`, and
schedules exactly the `n` retry timers firing at `100 * (k + 1 + i)` ms. -/
theorem pollRun_never_match {α : Type} (find : Nat → Option α)
    (h : ∀ j, find j = none) (n k : Nat) (timers : List Nat) :
    pollRun find (100 * (n : Int)) k timers =
      (.rejected (k + n),
        timers ++ (List.range n).map (fun i => 100 * (k + 1 + i))) := by
  induction n generalizing k timers with
  | zero =>
    rw [pollRun.eq_def, h k]
    norm_num
  | succ n ih =>
    rw [pollRun.eq_def, h k]
    have hpos : (100 * ((n + 1 : Nat) : Int)) > 0 := by push_cast; positivity
    rw [if_pos hpos]
    have harith : 100 * ((n + 1 : Nat) : Int) - 100 = 100 * (n : Int) := by
      push_cast; ring
    rw [harith, ih (k + 1) (timers ++ [100 * (k + 1)])]
    simp [List.range_succ_eq_map, List.map_map, Function.comp,
      Nat.add_assoc, Nat.add_comm, Nat.add_left_comm]

/-- Claim C6: for a lookup that never matches, `pollSelector` with its
default 10000 ms timeout polls at the fixed 100 ms interval (one retry timer
per 100 ms slot, firing at 100, 200, …), rejects at poll invocation 100 —
i.e. after exactly 100 * 100 = 10000 ms — and every timer it ever schedules
fires at or before the rejection time of 10000 ms, so nothing is scheduled
beyond the rejection. -/
theorem pollSelector_rejects_at_timeout {α : Type} (find : Nat → Option α)
    (h : ∀ j, find j = none) :
    pollSelector find =
      (.rejected 100, (List.range 100).map (fun i => 100 * (1 + i))) ∧
    ∀ t ∈ (pollSelector find).2, t ≤ 10 * 1000 := by
  have key := pollRun_never_match find h 100 0 []
  have e1 : (10 * 1000 : Int) = 100 * ((100 : Nat) : Int) := by norm_num
  unfold pollSelector
  rw [e1, key]
  constructor
  · simp
  · intro t ht
    simp only [List.nil_append, List.mem_map, List.mem_range] at ht
    obtain ⟨i, hi, rfl⟩ := ht
    omega

theorem pollSelector_rejects_at_timeout_witness :
    (∀ j : Nat, (fun _ => (none : Option Unit)) j = none) ∧
    (pollSelector (fun _ => (none : Option Unit)) =
        (.rejected 100, (List.range 100).map (fun i => 100 * (1 + i))) ∧
      ∀ t ∈ (pollSelector (fun _ => (none : Option Unit))).2, t ≤ 10 * 1000) :=
  ⟨fun _ => rfl, pollSelector_rejects_at_timeout _ (fun _ => rfl)⟩

/-- Claim C9: when the lookup already matches at call time, `pollSelector`
resolves with that element on its initial synchronous poll (invocation 0, at
0 ms elapsed) and schedules no timer at all. -/
theorem pollSelector_immediate_resolve {α : Type} (find : Nat → Option α)
    (e : α) (h : find 0 = some e) :
    pollSelector find = (.resolved e 0, []) := by
  unfold pollSelector
  rw [pollRun.eq_def, h]

theorem pollSelector_immediate_resolve_witness :
    (fun _ => some 7) 0 = some 7 ∧
    pollSelector (fun _ => some (7 : Nat)) = (.resolved 7 0, []) :=
  ⟨rfl, pollSelector_immediate_resolve (fun _ => some 7) 7 rfl⟩

/-- Claim C7: rendering the relay response `["music", "live"]` replaces all
prior content of the output element with exactly two tag elements, labelled
"music" and "live" in that order, each holding a link to a search query with
that exact label URL-encoded. Quantifying over the prior output element and
the layout flag shows the prior children never survive. -/
theorem render_two_tags (isMat : Bool) (out : OutputElement) :
    ∃ out2 delays,
      legacyDisplayTags isMat (some out) ["music", "live"] =
        .rendered out2 delays ∧
      out2.children.length = 2 ∧
      out2.children.map (fun c => c.linkText) = ["music", "live"] ∧
      out2.children.map (fun c => c.linkHref) =
        ["/results?search_query=music", "/results?search_query=live"] := by
  cases isMat <;> exact ⟨_, _, rfl, rfl, rfl, rfl⟩

theorem dispatch_fold_noop (loc : Location) (st : SessionState) (c : Nat)
    (hG : (isVideoPage loc && hasNavigated st loc) = false) (l : List String) :
    l.foldl (fun acc _ => runAnchorHandler loc acc) (st, c) = (st, c) := by
  induction l with
  | nil => rfl
  | cons x t ih =>
    show t.foldl _ (runAnchorHandler loc (st, c)) = (st, c)
    rw [show runAnchorHandler loc (st, c) = (st, c) from by
      unfold runAnchorHandler; simp [hG]]
    exact ih

theorem dispatch_fold_le_one (loc : Location) (st : SessionState) (c : Nat)
    (l : List String) :
    (l.foldl (fun acc _ => runAnchorHandler loc acc) (st, c)).2 ≤ c + 1 := by
  cases l with
  | nil => simp
  | cons x t =>
    show (t.foldl _ (runAnchorHandler loc (st, c))).2 ≤ c + 1
    by_cases hG : (isVideoPage loc && hasNavigated st loc) = true
    · have hstep : runAnchorHandler loc (st, c) =
          ({ lastVideoId := getVideoId loc }, c + 1) := by
        unfold runAnchorHandler loadTagsForCurrentVideo
        simp [hG]
      rw [hstep]
      have hG2 : (isVideoPage loc &&
          hasNavigated { lastVideoId := getVideoId loc } loc) = false := by
        simp [hasNavigated]
      rw [dispatch_fold_noop loc _ (c + 1) hG2 t]
    · have hG' : (isVideoPage loc && hasNavigated st loc) = false := by
        simpa using hG
      have hstep : runAnchorHandler loc (st, c) = (st, c) := by
        unfold runAnchorHandler; simp [hG']
      rw [hstep, dispatch_fold_noop loc st c hG' t]
      omega

/-- Claim C8: attaching the tag-load listener twice to the same anchor for
the same event is idempotent — the second `loadTagsOn` call is a no-op, so
at most one listener is added over the two calls — and a single subsequent
dispatch of that event issues at most one tag-load (relay) request. -/
theorem double_attach_single_request (a : Anchor) (event : String)
    (loc : Location) (st : SessionState) :
    loadTagsOn event (loadTagsOn event a) = loadTagsOn event a ∧
    (loadTagsOn event (loadTagsOn event a)).listeners.count event ≤
      a.listeners.count event + 1 ∧
    (dispatchEvent (loadTagsOn event (loadTagsOn event a)) event loc st).2 ≤
      1 := by
  have hidem : loadTagsOn event (loadTagsOn event a) = loadTagsOn event a := by
    unfold loadTagsOn
    by_cases hb : attrTruthy (getAttr a (preloadKey event)) = true
    · simp [hb]
    · have hb' : attrTruthy (getAttr a (preloadKey event)) = false := by
        simpa using hb
      simp only [hb', Bool.false_eq_true, if_neg, if_false]
      have hset : getAttr
          { attrs := (preloadKey event, "bound") :: a.attrs,
            listeners := a.listeners ++ [event] } (preloadKey event) =
          some "bound" := by
        unfold getAttr
        rw [List.find?_cons_of_pos _ (by simp)]
        rfl
      simp [hset, attrTruthy]
  refine ⟨hidem, ?_, ?_⟩
  · rw [hidem]
    unfold loadTagsOn
    by_cases hb : attrTruthy (getAttr a (preloadKey event)) = true
    · simp [hb]
    · have hb' : attrTruthy (getAttr a (preloadKey event)) = false := by
        simpa using hb
      simp [hb', List.count_append]
  · rw [hidem]
    unfold dispatchEvent
    exact dispatch_fold_le_one loc st 0 _

end TagsForYouTube
